import Mathlib

/-!
Verification of the MPSSE command-protocol layer of `mpsse.c`
(iceprog / ecpprog FTDI programming tool).

The C code talks to an external FTDI transport through `ftdi_write_data`
and `ftdi_read_data`.  We embed the transport as an abstract channel: a
state type `σ` with a byte-write operation and a (possibly failing)
byte-read operation.  Each `mpsse_*` function of the source is translated
into a Lean function over such a channel; machine integers are modelled
with `Int`/`Nat` with explicit `% 256` where C converts to `uint8_t`.
-/

/-- An abstract byte channel: `wr` writes one byte (always succeeds, as
`ftdi_write_data` of one byte does on a healthy transport), `rd` reads one
byte if one is available (`none` models a read that never returns a byte,
on which `mpsse_recv_byte` would block forever). -/
structure Chan (σ : Type) where
  wr : σ → Nat → σ
  rd : σ → Option (Nat × σ)

/-- Modelled from the spec: the single-byte MPSSE opcodes of `mpsse.h`,
which is not under `src/`.  Spec §6: distinct single-byte opcodes for
byte-wide data-out, byte-wide data-in+out, bit-wide data-in+out (bit-mode
flag), TMS-bit-shift (LSB-first + bit-mode flags), set/read low/high GPIO
bank, clock-divide-by-5 enable, clock-divisor set, clock-N-bytes-no-data,
clock-1-bit-no-data; values per the FTDI AN 108 document the source cites. -/
def MC_SETB_LOW : Nat := 0x80

/-- Modelled from the spec: read low GPIO bank opcode. -/
def MC_READB_LOW : Nat := 0x81

/-- Modelled from the spec: set high GPIO bank opcode. -/
def MC_SETB_HIGH : Nat := 0x82

/-- Modelled from the spec: read high GPIO bank opcode. -/
def MC_READB_HIGH : Nat := 0x83

/-- Modelled from the spec: enable clock divide-by-5 opcode. -/
def MC_TCK_D5 : Nat := 0x8B

/-- Modelled from the spec: set clock divisor opcode. -/
def MC_SET_CLK_DIV : Nat := 0x86

/-- Modelled from the spec: clock one bit with no data transfer. -/
def MC_CLK_N : Nat := 0x8E

/-- Modelled from the spec: clock N times 8 bits with no data transfer. -/
def MC_CLK_N8 : Nat := 0x8F

/-- Modelled from the spec: TMS-shift data flag. -/
def MC_DATA_TMS : Nat := 0x40

/-- Modelled from the spec: data-in (read) flag. -/
def MC_DATA_IN : Nat := 0x20

/-- Modelled from the spec: data-out (write) flag. -/
def MC_DATA_OUT : Nat := 0x10

/-- Modelled from the spec: LSB-first flag. -/
def MC_DATA_LSB : Nat := 0x08

/-- Modelled from the spec: read on negative clock edge flag. -/
def MC_DATA_ICN : Nat := 0x04

/-- Modelled from the spec: bit-mode (as opposed to byte-wide) flag. -/
def MC_DATA_BITS : Nat := 0x02

/-- Modelled from the spec: write on negative clock edge flag. -/
def MC_DATA_OCN : Nat := 0x01

/-- `mpsse_send_byte(uint8_t data)`: writes one byte to the channel.  The
parameter has type `uint8_t`, so the C argument (often an `int` expression
such as `n - 1`) is converted modulo 256 on entry; we take the argument as
`Int` and perform that conversion here. -/
def mpsse_send_byte {σ : Type} (c : Chan σ) (data : Int) (s : σ) : σ :=
  c.wr s ((data % 256).toNat)

/-- `mpsse_recv_byte()`: blocks until one byte is read; a channel that
never yields a byte makes it block forever, which we model as `none`. -/
def mpsse_recv_byte {σ : Type} (c : Chan σ) (s : σ) : Option (Nat × σ) :=
  c.rd s

/-- `ftdi_write_data(&mpsse_ftdic, data, n)`: writes the given bytes (a
`uint8_t` buffer, values already below 256) to the channel in order. -/
def writeBytes {σ : Type} (c : Chan σ) (bs : List Nat) (s : σ) : σ :=
  bs.foldl c.wr s

/-- The read loop `for (i = 0; i < n; i++) data[i] = mpsse_recv_byte();`
reads `k` bytes one at a time, in order. -/
def recvBytes {σ : Type} (c : Chan σ) : Nat → σ → Option (List Nat × σ)
  | 0, s => some ([], s)
  | k + 1, s =>
    match c.rd s with
    | none => none
    | some (b, s1) =>
      match recvBytes c k s1 with
      | none => none
      | some (bs, s2) => some (b :: bs, s2)

/-- `mpsse_send_spi(uint8_t *data, int n)`: half-duplex send.  For
`n < 1` it returns immediately.  Otherwise it emits the data-out opcode,
the low then high byte of `n - 1`, and then the `n` buffer bytes
(`data.take n.toNat`; the C buffer must hold at least `n` bytes). -/
def mpsse_send_spi {σ : Type} (c : Chan σ) (data : List Nat) (n : Int) (s : σ) : σ :=
  if n < 1 then s
  else
    let s1 := mpsse_send_byte c ((MC_DATA_OUT ||| MC_DATA_OCN : Nat) : Int) s
    let s2 := mpsse_send_byte c (n - 1) s1
    let s3 := mpsse_send_byte c ((n - 1) / 256) s2
    writeBytes c (data.take n.toNat) s3

/-- `mpsse_xfer_spi(uint8_t *data, int n)`: full-duplex transfer.  For
`n < 1` it returns immediately (buffer untouched).  Otherwise it emits the
data-in+out opcode, the low then high byte of `n - 1`, the `n` buffer
bytes, and then overwrites `data[0..n-1]` with `n` bytes read back one at
a time; the returned list is the updated buffer. -/
def mpsse_xfer_spi {σ : Type} (c : Chan σ) (data : List Nat) (n : Int) (s : σ) :
    Option (List Nat × σ) :=
  if n < 1 then some (data, s)
  else
    let s1 := mpsse_send_byte c ((MC_DATA_IN ||| MC_DATA_OUT ||| MC_DATA_OCN : Nat) : Int) s
    let s2 := mpsse_send_byte c (n - 1) s1
    let s3 := mpsse_send_byte c ((n - 1) / 256) s2
    let s4 := writeBytes c (data.take n.toNat) s3
    match recvBytes c n.toNat s4 with
    | none => none
    | some (recvd, s5) => some (recvd ++ data.drop n.toNat, s5)

/-- `mpsse_xfer_spi_bits(uint8_t data, int n)`: bit-wide full-duplex
transfer.  For `n < 1` it returns 0 with no channel I/O.  Otherwise it
emits the bit-mode data-in+out opcode, `n - 1`, and the data byte, then
reads back one reply byte. -/
def mpsse_xfer_spi_bits {σ : Type} (c : Chan σ) (data : Nat) (n : Int) (s : σ) :
    Option (Nat × σ) :=
  if n < 1 then some (0, s)
  else
    let s1 := mpsse_send_byte c
      ((MC_DATA_IN ||| MC_DATA_OUT ||| MC_DATA_OCN ||| MC_DATA_BITS : Nat) : Int) s
    let s2 := mpsse_send_byte c (n - 1) s1
    let s3 := mpsse_send_byte c (data : Int) s2
    mpsse_recv_byte c s3

/-- `mpsse_set_gpio(uint8_t gpio, uint8_t direction)`: emits the set-low-
bank opcode, the value byte, then the direction byte. -/
def mpsse_set_gpio {σ : Type} (c : Chan σ) (gpio direction : Nat) (s : σ) : σ :=
  mpsse_send_byte c (direction : Int)
    (mpsse_send_byte c (gpio : Int)
      (mpsse_send_byte c ((MC_SETB_LOW : Nat) : Int) s))

/-- `mpsse_readb_low()`: emits the read-low-bank opcode and reads back one
reply byte. -/
def mpsse_readb_low {σ : Type} (c : Chan σ) (s : σ) : Option (Nat × σ) :=
  mpsse_recv_byte c (mpsse_send_byte c ((MC_READB_LOW : Nat) : Int) s)

/-- `mpsse_readb_high()`: emits the read-high-bank opcode and reads back
one reply byte. -/
def mpsse_readb_high {σ : Type} (c : Chan σ) (s : σ) : Option (Nat × σ) :=
  mpsse_recv_byte c (mpsse_send_byte c ((MC_READB_HIGH : Nat) : Int) s)

/-- `mpsse_send_dummy_bytes(uint8_t n)`: emits the clock-N-bytes opcode,
then `n - 1` computed in `int` and converted back to `uint8_t` (so `n = 0`
wraps to 255), then a zero byte. -/
def mpsse_send_dummy_bytes {σ : Type} (c : Chan σ) (n : Nat) (s : σ) : σ :=
  let s1 := mpsse_send_byte c ((MC_CLK_N8 : Nat) : Int) s
  let s2 := mpsse_send_byte c ((n : Int) - 1) s1
  mpsse_send_byte c 0 s2

/-- `mpsse_send_dummy_bit()`: emits the clock-1-bit opcode then a zero
byte. -/
def mpsse_send_dummy_bit {σ : Type} (c : Chan σ) (s : σ) : σ :=
  mpsse_send_byte c 0 (mpsse_send_byte c ((MC_CLK_N : Nat) : Int) s)

/-- `mpsse_jtag_tms(uint8_t bits, uint8_t pattern)`: emits the TMS-shift
opcode (LSB-first, bit mode), then `bits - 1` computed in `int` and
converted back to `uint8_t` (so `bits = 0` wraps to 255), then the pattern
byte. -/
def mpsse_jtag_tms {σ : Type} (c : Chan σ) (bits pattern : Nat) (s : σ) : σ :=
  let s1 := mpsse_send_byte c
    ((MC_DATA_TMS ||| MC_DATA_LSB ||| MC_DATA_BITS : Nat) : Int) s
  let s2 := mpsse_send_byte c ((bits : Int) - 1) s1
  mpsse_send_byte c (pattern : Int) s2

/-- The clock-configuration tail of `mpsse_init` (after MPSSE bit-mode is
set): emits the divide-by-5 enable opcode, then the set-clock-divisor
opcode with divisor bytes 119, 0 when `slow_clock` and 0, 0 otherwise. -/
def mpsse_init_clock {σ : Type} (c : Chan σ) (slow_clock : Bool) (s : σ) : σ :=
  let s1 := mpsse_send_byte c ((MC_TCK_D5 : Nat) : Int) s
  if slow_clock then
    let s2 := mpsse_send_byte c ((MC_SET_CLK_DIV : Nat) : Int) s1
    let s3 := mpsse_send_byte c 119 s2
    mpsse_send_byte c 0 s3
  else
    let s2 := mpsse_send_byte c ((MC_SET_CLK_DIV : Nat) : Int) s1
    let s3 := mpsse_send_byte c 0 s2
    mpsse_send_byte c 0 s3

/-- The four logical FTDI interfaces (`enum ftdi_interface`). -/
inductive FtdiInterface where
  | A
  | B
  | C
  | D
  deriving DecidableEq, Repr

/-- The `switch (ifnum)` at the head of `mpsse_init`: selectors 0..3 map
to interfaces A..D and everything else falls to the `default:` branch,
interface A. -/
def selectInterface (ifnum : Int) : FtdiInterface :=
  if ifnum = 0 then FtdiInterface.A
  else if ifnum = 1 then FtdiInterface.B
  else if ifnum = 2 then FtdiInterface.C
  else if ifnum = 3 then FtdiInterface.D
  else FtdiInterface.A

/-- The concrete trace channel used to observe the encoder: `written` is
the sequence of bytes written so far, `pending` the bytes available on the
read side. -/
structure TraceChan where
  written : List Nat
  pending : List Nat
  deriving DecidableEq, Repr

/-- Trace-channel operations: writing appends to `written`; reading pops
the head of `pending` and fails (`rc <= 0` forever) when it is empty. -/
def traceChan : Chan TraceChan where
  wr := fun s b => { s with written := s.written ++ [b] }
  rd := fun s =>
    match s.pending with
    | [] => none
    | b :: rest => some (b, { s with pending := rest })

/-- `mpsse_check_rx()`: reads single bytes until the channel yields none,
logging each one as an unexpected rx byte.  Over the trace channel this
drains `pending` in order; the first component is the list of logged
bytes. -/
def mpsse_check_rx (s : TraceChan) : List Nat × TraceChan :=
  (s.pending, { written := s.written, pending := [] })

/-- The restore calls `mpsse_error` makes on the external transport. -/
inductive FtdiCall where
  | setLatencyTimer (value : Nat)
  | usbClose
  | ftdiDeinit
  deriving DecidableEq, Repr

/-- The process-wide globals of `mpsse.c` that `mpsse_error` consults:
`mpsse_ftdic_open`, `mpsse_ftdic_latency_set`, `mpsse_ftdi_latency`. -/
structure MpsseGlobals where
  ftdic_open : Bool
  ftdic_latency_set : Bool
  ftdi_latency : Nat
  deriving DecidableEq, Repr

/-- Observable outcome of `mpsse_error`: the stray bytes it drained and
logged, the transport restore calls it made (in order), and the status it
passed to `exit`. -/
structure ErrorResult where
  logged : List Nat
  calls : List FtdiCall
  exitStatus : Int
  deriving DecidableEq, Repr

/-- `mpsse_error(int status)`: drains and logs stray rx bytes, prints the
abort message, and, only if the device was opened, restores the saved
latency timer (only if one was saved) and closes the USB transport; the
transport is deinitialized unconditionally and the process exits with the
given status. -/
def mpsse_error (g : MpsseGlobals) (s : TraceChan) (status : Int) : ErrorResult :=
  let drained := (mpsse_check_rx s).1
  let calls :=
    (if g.ftdic_open then
      (if g.ftdic_latency_set then [FtdiCall.setLatencyTimer g.ftdi_latency] else [])
        ++ [FtdiCall.usbClose]
    else [])
    ++ [FtdiCall.ftdiDeinit]
  { logged := drained, calls := calls, exitStatus := status }

-- ---------------------------------------------------------------------
-- Basic facts about the trace channel
-- ---------------------------------------------------------------------

theorem traceChan_wr (s : TraceChan) (b : Nat) :
    traceChan.wr s b = { s with written := s.written ++ [b] } := rfl

theorem mpsse_send_byte_trace (d : Int) (s : TraceChan) :
    mpsse_send_byte traceChan d s =
      { s with written := s.written ++ [(d % 256).toNat] } := rfl

theorem writeBytes_trace (bs : List Nat) (s : TraceChan) :
    writeBytes traceChan bs s = { s with written := s.written ++ bs } := by
  induction bs generalizing s with
  | nil => simp [writeBytes]
  | cons b rest ih =>
    simp only [writeBytes, List.foldl_cons] at *
    rw [ih]
    simp [traceChan]

theorem recvBytes_trace (k : Nat) (s : TraceChan) (h : k ≤ s.pending.length) :
    recvBytes traceChan k s =
      some (s.pending.take k, { s with pending := s.pending.drop k }) := by
  induction k generalizing s with
  | zero => simp [recvBytes]
  | succ k ih =>
    match hs : s.pending with
    | [] => simp [hs] at h
    | b :: rest =>
      have hr : k ≤ rest.length := by
        simp [hs] at h
        omega
      have hrd : traceChan.rd s = some (b, { s with pending := rest }) := by
        simp [traceChan, hs]
      simp only [recvBytes]
      rw [hrd]
      simp [ih { s with pending := rest } hr, hs]

-- ---------------------------------------------------------------------
-- Loopback device for the GPIO round-trip law
-- ---------------------------------------------------------------------

/-- State of an idealized loopback device that interprets the written
byte stream: the low GPIO bank value it currently holds, the bytes of a
command received so far, and the queued reply bytes. -/
structure LoopState where
  low : Nat
  cmd : List Nat
  outbox : List Nat
  deriving DecidableEq, Repr

/-- Byte-write transition of the loopback device: a set-low-bank command
consumes three bytes (opcode, value, direction) and stores the value; a
read-low-bank command consumes one byte and queues the stored value as
the reply; any other byte is ignored. -/
def loopWr (s : LoopState) (b : Nat) : LoopState :=
  match s.cmd with
  | [] =>
    if b = MC_SETB_LOW then { s with cmd := [b] }
    else if b = MC_READB_LOW then { s with outbox := s.outbox ++ [s.low] }
    else s
  | [c] => if c = MC_SETB_LOW then { s with cmd := [c, b] } else s
  | c :: v :: _ =>
    if c = MC_SETB_LOW then { low := v, cmd := [], outbox := s.outbox } else s

/-- Byte-read transition of the loopback device: pops the oldest queued
reply byte. -/
def loopRd (s : LoopState) : Option (Nat × LoopState) :=
  match s.outbox with
  | [] => none
  | b :: rest => some (b, { s with outbox := rest })

/-- The idealized loopback transport that echoes the GPIO bank state. -/
def loopChan : Chan LoopState where
  wr := loopWr
  rd := loopRd

-- ---------------------------------------------------------------------
-- Helper lemmas shared by the claim theorems
-- ---------------------------------------------------------------------

theorem toNat_coe_mod256 (x : Nat) (hx : x < 256) : (((x : Int)) % 256).toNat = x := by
  omega

theorem send_byte_lt (x : Nat) (hx : x < 256) (s : TraceChan) :
    mpsse_send_byte traceChan (x : Int) s = { s with written := s.written ++ [x] } := by
  rw [mpsse_send_byte_trace, toNat_coe_mod256 x hx]

/-- General shape of a half-duplex send over the trace channel. -/
theorem send_spi_ok (data : List Nat) (n : Int) (s : TraceChan)
    (hn : 1 ≤ n) (hlen : data.length = n.toNat) :
    mpsse_send_spi traceChan data n s =
      { written := s.written ++
          [MC_DATA_OUT ||| MC_DATA_OCN,
            ((n - 1) % 256).toNat, (((n - 1) / 256) % 256).toNat]
          ++ data,
        pending := s.pending } := by
  have hn' : ¬ n < 1 := by omega
  have hop : (MC_DATA_OUT ||| MC_DATA_OCN : Nat) < 256 := by decide
  have htake : data.take n.toNat = data := by
    rw [← hlen]
    exact List.take_length data
  simp only [mpsse_send_spi, hn', if_false, writeBytes_trace,
    mpsse_send_byte_trace, send_byte_lt _ hop, htake]
  simp [List.append_assoc]

/-- General shape of a full-duplex transfer over the trace channel. -/
theorem xfer_spi_ok (data : List Nat) (n : Int) (s : TraceChan)
    (hn : 1 ≤ n) (hlen : data.length = n.toNat) (hp : n.toNat ≤ s.pending.length) :
    mpsse_xfer_spi traceChan data n s =
      some (s.pending.take n.toNat,
        { written := s.written ++
            [MC_DATA_IN ||| MC_DATA_OUT ||| MC_DATA_OCN,
              ((n - 1) % 256).toNat, (((n - 1) / 256) % 256).toNat]
            ++ data,
          pending := s.pending.drop n.toNat }) := by
  have hn' : ¬ n < 1 := by omega
  have hop : (MC_DATA_IN ||| MC_DATA_OUT ||| MC_DATA_OCN : Nat) < 256 := by decide
  have htake : data.take n.toNat = data := by
    rw [← hlen]
    exact List.take_length data
  have hdrop : data.drop n.toNat = [] := by
    rw [← hlen]
    exact List.drop_length data
  simp only [mpsse_xfer_spi, hn', if_false, writeBytes_trace,
    mpsse_send_byte_trace, send_byte_lt _ hop, htake]
  rw [recvBytes_trace n.toNat _ (by simpa using hp)]
  simp [hdrop, List.append_assoc]

-- ---------------------------------------------------------------------
-- Claim theorems
-- ---------------------------------------------------------------------

/-- C1: for every n ≥ 1, `mpsse_xfer_spi(data, n)` first writes the
full-duplex opcode byte and the 16-bit little-endian length field holding
n−1 (low byte `(n−1) % 256`, then high byte `((n−1) >> 8) % 256`), then
writes exactly the n bytes of `data`, then reads back exactly n reply
bytes, overwriting `data` in place with the received bytes, same length
as sent. -/
theorem claim_xfer_spi_full_duplex (data : List Nat) (n : Int) (s : TraceChan)
    (hn : 1 ≤ n) (hlen : data.length = n.toNat) (hp : n.toNat ≤ s.pending.length) :
    mpsse_xfer_spi traceChan data n s =
      some (s.pending.take n.toNat,
        { written := s.written ++
            [MC_DATA_IN ||| MC_DATA_OUT ||| MC_DATA_OCN,
              ((n - 1) % 256).toNat, (((n - 1) / 256) % 256).toNat]
            ++ data,
          pending := s.pending.drop n.toNat }) ∧
    (s.pending.take n.toNat).length = n.toNat := by
  refine ⟨xfer_spi_ok data n s hn hlen hp, ?_⟩
  simp [List.length_take]
  omega

/-- Witness for C1 at n = 2, data = [10, 20], two pending reply bytes. -/
theorem claim_xfer_spi_full_duplex_witness :
    mpsse_xfer_spi traceChan [10, 20] 2 ⟨[], [7, 8]⟩ =
      some ([7, 8], ⟨[49, 1, 0, 10, 20], []⟩) ∧
    (([7, 8] : List Nat).take (2 : Int).toNat).length = (2 : Int).toNat := by
  have h := claim_xfer_spi_full_duplex [10, 20] 2 ⟨[], [7, 8]⟩
    (by decide) (by decide) (by decide)
  have e1 : (MC_DATA_IN ||| MC_DATA_OUT ||| MC_DATA_OCN : Nat) = 49 := by decide
  have e2 : (((2 : Int) - 1) % 256).toNat = 1 := by decide
  have e3 : ((((2 : Int) - 1) / 256) % 256).toNat = 0 := by decide
  rw [e1, e2, e3] at h
  simpa using h

/-- C2: for every n < 1, `mpsse_send_spi` and `mpsse_xfer_spi` perform no
channel I/O (nothing written or read, buffer unchanged), and
`mpsse_xfer_spi_bits` performs no channel I/O and returns 0. -/
theorem claim_spi_noop_below_one (data : List Nat) (b : Nat) (n : Int) (s : TraceChan)
    (hn : n < 1) :
    mpsse_send_spi traceChan data n s = s ∧
    mpsse_xfer_spi traceChan data n s = some (data, s) ∧
    mpsse_xfer_spi_bits traceChan b n s = some (0, s) := by
  refine ⟨?_, ?_, ?_⟩ <;>
    simp [mpsse_send_spi, mpsse_xfer_spi, mpsse_xfer_spi_bits, hn]

/-- Witness for C2 at n = 0. -/
theorem claim_spi_noop_below_one_witness :
    mpsse_send_spi traceChan [1, 2] 0 ⟨[], []⟩ = ⟨[], []⟩ ∧
    mpsse_xfer_spi traceChan [1, 2] 0 ⟨[], []⟩ = some ([1, 2], ⟨[], []⟩) ∧
    mpsse_xfer_spi_bits traceChan 7 0 ⟨[], []⟩ = some (0, ⟨[], []⟩) :=
  claim_spi_noop_below_one [1, 2] 7 0 ⟨[], []⟩ (by decide)

/-- C3: clock configuration first emits the divide-by-5 enable opcode;
then the set-clock-divisor opcode followed by divisor bytes 119 then 0
when `slow_clock` is true, and 0 then 0 when it is false. -/
theorem claim_init_clock_bytes (slow_clock : Bool) (s : TraceChan) :
    mpsse_init_clock traceChan slow_clock s =
      { written := s.written ++
          [MC_TCK_D5, MC_SET_CLK_DIV, if slow_clock then 119 else 0, 0],
        pending := s.pending } := by
  have b119 : (((119 : Int)) % 256).toNat = 119 := by decide
  have b0 : (((0 : Int)) % 256).toNat = 0 := by decide
  have e119 : ∀ t : TraceChan, mpsse_send_byte traceChan 119 t =
      { t with written := t.written ++ [119] } := by
    intro t
    rw [mpsse_send_byte_trace, b119]
  have e0 : ∀ t : TraceChan, mpsse_send_byte traceChan 0 t =
      { t with written := t.written ++ [0] } := by
    intro t
    rw [mpsse_send_byte_trace, b0]
  cases slow_clock <;>
    simp [mpsse_init_clock, send_byte_lt MC_TCK_D5 (by decide),
      send_byte_lt MC_SET_CLK_DIV (by decide), e119, e0, List.append_assoc]

/-- C4: the abort path drains and logs the stray read-side bytes and
exits with the supplied status; with the device never opened it makes no
restore calls (no latency restore, no USB close) but still deinitializes
the transport and exits with the status; with the device opened and a
latency value saved it restores exactly the saved value before closing;
the transport is deinitialized unconditionally in every case. -/
theorem claim_error_teardown (g : MpsseGlobals) (s : TraceChan) (status : Int) :
    (mpsse_error g s status).logged = s.pending ∧
    (mpsse_error g s status).exitStatus = status ∧
    FtdiCall.ftdiDeinit ∈ (mpsse_error g s status).calls ∧
    (g.ftdic_open = false → (mpsse_error g s status).calls = [FtdiCall.ftdiDeinit]) ∧
    (g.ftdic_open = true → g.ftdic_latency_set = true →
      (mpsse_error g s status).calls =
        [FtdiCall.setLatencyTimer g.ftdi_latency, FtdiCall.usbClose,
          FtdiCall.ftdiDeinit]) := by
  obtain ⟨o, l, lat⟩ := g
  cases o <;> cases l <;>
    simp [mpsse_error, mpsse_check_rx]

/-- Witness for C4: device open with saved latency 7, status 2. -/
theorem claim_error_teardown_witness :
    (mpsse_error ⟨true, true, 7⟩ ⟨[], [3]⟩ 2).calls =
      [FtdiCall.setLatencyTimer 7, FtdiCall.usbClose, FtdiCall.ftdiDeinit] :=
  (claim_error_teardown ⟨true, true, 7⟩ ⟨[], [3]⟩ 2).2.2.2.2 rfl rfl

/-- C5: `mpsse_init` maps interface selector 0 to A, 1 to B, 2 to C, 3 to
D, and any other selector (such as 9) to the default interface A. -/
theorem claim_interface_selection :
    selectInterface 0 = FtdiInterface.A ∧
    selectInterface 1 = FtdiInterface.B ∧
    selectInterface 2 = FtdiInterface.C ∧
    selectInterface 3 = FtdiInterface.D ∧
    selectInterface 9 = FtdiInterface.A ∧
    ∀ i : Int, i ≠ 0 → i ≠ 1 → i ≠ 2 → i ≠ 3 → selectInterface i = FtdiInterface.A := by
  refine ⟨rfl, rfl, rfl, rfl, rfl, ?_⟩
  intro i h0 h1 h2 h3
  simp [selectInterface, h0, h1, h2, h3]

/-- Witness for C5: an out-of-range negative selector also maps to A. -/
theorem claim_interface_selection_witness :
    selectInterface (-5) = FtdiInterface.A :=
  claim_interface_selection.2.2.2.2.2 (-5)
    (by decide) (by decide) (by decide) (by decide)

/-- C6: `mpsse_jtag_tms(bits, pattern)` emits exactly three bytes: the
TMS-shift opcode (LSB-first and bit-mode flags set), the length byte
bits − 1, then the pattern byte. -/
theorem claim_jtag_tms_bytes (bits pattern : Nat) (s : TraceChan)
    (h1 : 1 ≤ bits) (h2 : bits < 256) (h3 : pattern < 256) :
    mpsse_jtag_tms traceChan bits pattern s =
      { written := s.written ++
          [MC_DATA_TMS ||| MC_DATA_LSB ||| MC_DATA_BITS, bits - 1, pattern],
        pending := s.pending } := by
  have hop : (MC_DATA_TMS ||| MC_DATA_LSB ||| MC_DATA_BITS : Nat) < 256 := by decide
  have epred : (((bits : Int) - 1) % 256).toNat = bits - 1 := by omega
  simp only [mpsse_jtag_tms, send_byte_lt _ hop, send_byte_lt pattern h3,
    mpsse_send_byte_trace, epred]
  simp [List.append_assoc]

/-- Witness for C6: a shift of 3 bits with pattern 0b101 emits the
opcode byte, then 2, then 5. -/
theorem claim_jtag_tms_bytes_witness :
    mpsse_jtag_tms traceChan 3 5 ⟨[], []⟩ = ⟨[74, 2, 5], []⟩ := by
  have h := claim_jtag_tms_bytes 3 5 ⟨[], []⟩ (by decide) (by decide) (by decide)
  have e : (MC_DATA_TMS ||| MC_DATA_LSB ||| MC_DATA_BITS : Nat) = 74 := by decide
  rw [e] at h
  simpa using h

/-- C7: for every n ≥ 1, `mpsse_send_spi(data, n)` emits the byte-wide
clock-out-on-negative-edge opcode, the 16-bit length-minus-one field low
byte then high byte, then the n data bytes verbatim, and reads back no
reply bytes (the pending read side is untouched). -/
theorem claim_send_spi_bytes (data : List Nat) (n : Int) (s : TraceChan)
    (hn : 1 ≤ n) (hlen : data.length = n.toNat) :
    mpsse_send_spi traceChan data n s =
      { written := s.written ++
          [MC_DATA_OUT ||| MC_DATA_OCN,
            ((n - 1) % 256).toNat, (((n - 1) / 256) % 256).toNat]
          ++ data,
        pending := s.pending } :=
  send_spi_ok data n s hn hlen

/-- Witness for C7 at n = 3, data = [5, 6, 7]. -/
theorem claim_send_spi_bytes_witness :
    mpsse_send_spi traceChan [5, 6, 7] 3 ⟨[], [9]⟩ = ⟨[17, 2, 0, 5, 6, 7], [9]⟩ := by
  have h := claim_send_spi_bytes [5, 6, 7] 3 ⟨[], [9]⟩ (by decide) (by decide)
  have e1 : (MC_DATA_OUT ||| MC_DATA_OCN : Nat) = 17 := by decide
  have e2 : (((3 : Int) - 1) % 256).toNat = 2 := by decide
  have e3 : ((((3 : Int) - 1) / 256) % 256).toNat = 0 := by decide
  rw [e1, e2, e3] at h
  simpa using h

/-- C8: round-trip law — on the idealized loopback transport that echoes
the GPIO bank state, `mpsse_set_gpio(value, direction)` followed
immediately by `mpsse_readb_low()` returns the value byte that was set. -/
theorem claim_gpio_roundtrip (v d low0 : Nat) (hv : v < 256) (hd : d < 256) :
    mpsse_readb_low loopChan (mpsse_set_gpio loopChan v d ⟨low0, [], []⟩) =
      some (v, ⟨v, [], []⟩) := by
  have hv' : (((v : Int)) % 256).toNat = v := by omega
  have hd' : (((d : Int)) % 256).toNat = d := by omega
  have h128 : ((((MC_SETB_LOW : Nat)) : Int) % 256).toNat = 128 := by decide
  have h129 : ((((MC_READB_LOW : Nat)) : Int) % 256).toNat = 129 := by decide
  simp [mpsse_readb_low, mpsse_set_gpio, mpsse_send_byte, mpsse_recv_byte,
    loopChan, loopWr, loopRd, MC_SETB_LOW, MC_READB_LOW, hv', hd', h128, h129]

/-- Witness for C8 at value 66, direction 147. -/
theorem claim_gpio_roundtrip_witness :
    mpsse_readb_low loopChan (mpsse_set_gpio loopChan 66 147 ⟨0, [], []⟩) =
      some (66, ⟨66, [], []⟩) :=
  claim_gpio_roundtrip 66 147 0 (by decide) (by decide)

/-- C9: the single-byte count fields have no zero-count guard — the
count-minus-one computation wraps modulo 256, so `mpsse_send_dummy_bytes(0)`
emits length byte 255 and `mpsse_jtag_tms(0, pattern)` emits length byte
255. -/
theorem claim_count_minus_one_wraps (p : Nat) (s : TraceChan) (hp : p < 256) :
    mpsse_send_dummy_bytes traceChan 0 s =
      { written := s.written ++ [MC_CLK_N8, 255, 0], pending := s.pending } ∧
    mpsse_jtag_tms traceChan 0 p s =
      { written := s.written ++
          [MC_DATA_TMS ||| MC_DATA_LSB ||| MC_DATA_BITS, 255, p],
        pending := s.pending } := by
  have hop1 : (MC_CLK_N8 : Nat) < 256 := by decide
  have hop2 : (MC_DATA_TMS ||| MC_DATA_LSB ||| MC_DATA_BITS : Nat) < 256 := by decide
  have e255 : ((((0 : Nat) : Int) - 1) % 256).toNat = 255 := by decide
  have e0 : (((0 : Int)) % 256).toNat = 0 := by decide
  constructor
  · simp only [mpsse_send_dummy_bytes, send_byte_lt _ hop1,
      mpsse_send_byte_trace, e255, e0]
    simp [List.append_assoc]
  · simp only [mpsse_jtag_tms, send_byte_lt _ hop2, send_byte_lt p hp,
      mpsse_send_byte_trace, e255]
    simp [List.append_assoc]

/-- Witness for C9 at pattern 5. -/
theorem claim_count_minus_one_wraps_witness :
    mpsse_send_dummy_bytes traceChan 0 ⟨[], []⟩ = ⟨[143, 255, 0], []⟩ ∧
    mpsse_jtag_tms traceChan 0 5 ⟨[], []⟩ = ⟨[74, 255, 5], []⟩ := by
  have h := claim_count_minus_one_wraps 5 ⟨[], []⟩ (by decide)
  have e1 : (MC_CLK_N8 : Nat) = 143 := by decide
  have e2 : (MC_DATA_TMS ||| MC_DATA_LSB ||| MC_DATA_BITS : Nat) = 74 := by decide
  rw [e1, e2] at h
  simpa using h

/-- C10: for n > 65536, `mpsse_send_spi` and `mpsse_xfer_spi` emit a
16-bit length field equal to (n−1) mod 65536 (each byte taken modulo
256) while still writing all n payload bytes, and for `mpsse_xfer_spi`
still reading n reply bytes; no upper bound on n is checked. -/
theorem claim_large_length_wraps (data : List Nat) (n : Int) (s : TraceChan)
    (hn : 65536 < n) (hlen : data.length = n.toNat) (hp : n.toNat ≤ s.pending.length) :
    mpsse_send_spi traceChan data n s =
      { written := s.written ++
          [MC_DATA_OUT ||| MC_DATA_OCN,
            (((n - 1) % 65536) % 256).toNat, (((n - 1) % 65536) / 256).toNat]
          ++ data,
        pending := s.pending } ∧
    mpsse_xfer_spi traceChan data n s =
      some (s.pending.take n.toNat,
        { written := s.written ++
            [MC_DATA_IN ||| MC_DATA_OUT ||| MC_DATA_OCN,
              (((n - 1) % 65536) % 256).toNat, (((n - 1) % 65536) / 256).toNat]
            ++ data,
          pending := s.pending.drop n.toNat }) := by
  have e1 : ((n - 1) % 65536) % 256 = (n - 1) % 256 :=
    Int.emod_emod_of_dvd _ (by norm_num)
  have e2 : ((n - 1) % 65536) / 256 = ((n - 1) / 256) % 256 := by omega
  rw [e1, e2]
  exact ⟨send_spi_ok data n s (by omega) hlen,
    xfer_spi_ok data n s (by omega) hlen hp⟩

/-- Witness for C10 at n = 65537: the 16-bit length field wraps to 0
while all 65537 payload bytes are written and 65537 replies read. -/
theorem claim_large_length_wraps_witness :
    mpsse_send_spi traceChan (List.replicate 65537 3) 65537 ⟨[], List.replicate 65537 9⟩ =
      ⟨[17, 0, 0] ++ List.replicate 65537 3, List.replicate 65537 9⟩ ∧
    mpsse_xfer_spi traceChan (List.replicate 65537 3) 65537 ⟨[], List.replicate 65537 9⟩ =
      some (List.replicate 65537 9, ⟨[49, 0, 0] ++ List.replicate 65537 3, []⟩) := by
  have h := claim_large_length_wraps (List.replicate 65537 3) 65537
    ⟨[], List.replicate 65537 9⟩ (by decide)
    (by rw [List.length_replicate]; rfl)
    (by rw [List.length_replicate]; exact le_of_eq rfl)
  have e1 : (MC_DATA_OUT ||| MC_DATA_OCN : Nat) = 17 := by decide
  have e2 : (MC_DATA_IN ||| MC_DATA_OUT ||| MC_DATA_OCN : Nat) = 49 := by decide
  have e3 : ((((65537 : Int) - 1) % 65536) % 256).toNat = 0 := by decide
  have e4 : ((((65537 : Int) - 1) % 65536) / 256).toNat = 0 := by decide
  have et : (65537 : Int).toNat = 65537 := rfl
  rw [e1, e2, e3, e4, et, List.take_replicate, min_self, List.drop_replicate,
    Nat.sub_self, List.replicate_zero, List.nil_append, List.nil_append] at h
  exact h
